import Mathlib

/-!
Shallow embedding of the core components of the Donation-Tracker repository:
the in-memory TTL cache, the cached campaign repository proxy, the access
control proxy (`app/services/proxy.py`), the donation model methods
(`app/models/donation.py`), and the chain-of-responsibility donation
processing pipeline (`app/services/chain_of_responsibility.py`).

Conventions of the embedding:
* Python wall-clock time (`datetime.utcnow()`) is passed explicitly as a
  `now : Nat` argument (seconds); timestamps recorded purely for display in
  log/error entries are omitted from those entries.
* Monetary amounts are exact rationals (`Rat`).
* The models expose their state through enum-valued, getter-only
  `@property` descriptors, while the handlers compare those values against
  plain strings; `PyEnumOrStr` embeds such a value and `pyEqStr` reproduces
  Python's `==` (an enum member never equals a `str`).
* Attribute operations the models do not support — assigning through a
  getter-only property (`Donation.status`, `Donation.transaction_id`,
  `Campaign.current_amount`, ...), or reading an attribute that does not
  exist (`donor.id`, `campaign.id`, `donation.requires_review` before the
  fraud handler creates it) — raise `AttributeError` in the source and are
  embedded as the corresponding fault at that exact site.
* Code that may raise is embedded with `Except String`, catching modelled by
  pattern matching, mirroring `try/except` blocks in the source.
-/

namespace DonationTracker

/-- Python substring test `p in s` (`True` iff `p` occurs contiguously in `s`). -/
def strContains (s p : String) : Bool :=
  (List.range (s.toList.length + 1)).any (fun i => p.toList.isPrefixOf (s.toList.drop i))

/-- A Python value that is either an enum member of `α` or a plain string.
Python `==` between an enum member and a `str` is `False`. -/
inductive PyEnumOrStr (α : Type) where
  | enum (a : α)
  | str  (s : String)
deriving DecidableEq, Repr

/-- Python `v == t` for `v` an enum-or-string value and `t` a string literal. -/
def pyEqStr {α : Type} : PyEnumOrStr α → String → Bool
  | .enum _, _ => false
  | .str s, t => s == t

/-- `CampaignStatus` enum from `app/models/campaign.py`. -/
inductive CampaignStatus where
  | draft | active | paused | completed | cancelled
deriving DecidableEq, Repr

/-- `DonationStatus` enum from `app/models/donation.py`. -/
inductive DonationStatus where
  | pending | completed | failed | refunded
deriving DecidableEq, Repr

/-- `str(AttributeError)` for reading `donor.id` (the model has `user_id`
only).  The exact wording varies across Python versions; a fixed
representative text is used and no theorem depends on its content. -/
def attrErrDonorId : String := "'Donor' object has no attribute 'id'"

/-- `str(AttributeError)` for reading `campaign.id` (the model has
`campaign_id` only). -/
def attrErrCampaignId : String := "'Campaign' object has no attribute 'id'"

/-- `str(AttributeError)` for assigning the getter-only
`Donation.transaction_id` property. -/
def attrErrSetTransactionId : String :=
  "property 'transaction_id' of 'Donation' object has no setter"

/-- `str(AttributeError)` for reading `donation.requires_review` before it
was ever assigned. -/
def attrErrRequiresReview : String :=
  "'Donation' object has no attribute 'requires_review'"

/-- `str(AttributeError)` for assigning the getter-only `Donation.status`
property. -/
def attrErrSetStatus : String := "property 'status' of 'Donation' object has no setter"

/-- `str(AttributeError)` for assigning the getter-only
`Campaign.current_amount` property. -/
def attrErrSetCurrentAmount : String :=
  "property 'current_amount' of 'Campaign' object has no setter"

/-- Campaign object as the pipeline handlers and repository proxies receive
it: the readable properties of the `Campaign` model
(`app/models/campaign.py`).  The model exposes `campaign_id` and has no `id`
attribute, and every property is getter-only, so handler code that reads
`campaign.id` or assigns to a property raises `AttributeError` — embedded at
those sites, not here.  `status` holds the `CampaignStatus` enum member on a
model object; the `PyEnumOrStr.str` side is the value space handler code
compares against. -/
structure PCampaign where
  campaign_id : String
  status : PyEnumOrStr CampaignStatus
  end_date : Option Nat
  goal_amount : Rat
  current_amount : Rat
  donation_count : Nat
deriving DecidableEq, Repr

/-! ## InMemoryCache (`app/services/proxy.py`, class `InMemoryCache`)

The cache is a dict from string keys to entries carrying the stored value,
creation/expiry instants and hit accounting.  The dict is embedded as an
association list with unique keys (`set` overwrites). -/

/-- Values stored in the cache: a single campaign snapshot or a list of them
(the proxies serialize domain objects through `to_dict`/`from_dict`; the
round-trip is embedded as the identity on the snapshot). -/
inductive CacheVal where
  | camp  (c : PCampaign)
  | camps (l : List PCampaign)
deriving DecidableEq, Repr

/-- One cache entry, as built by `InMemoryCache.set`. -/
structure CacheEntry where
  value : CacheVal
  created_at : Nat
  expires_at : Nat
  hits : Nat
  last_accessed : Nat
deriving DecidableEq, Repr

/-- The cache body: `self._cache` dict, keyed by string. -/
abbrev Cache := List (String × CacheEntry)

/-- In-place mutation of the dict entry under `key` (the `entry['hits'] += 1`
and `entry['last_accessed'] = ...` updates of `InMemoryCache.get`). -/
def updateEntry (key : String) (e' : CacheEntry) (kv : String × CacheEntry) :
    String × CacheEntry :=
  if kv.1 = key then (key, e') else kv

/-- `InMemoryCache.get`: on a present, unexpired entry bump its `hits` and
`last_accessed` and return the value; on an expired entry delete it and
return `None`; on an absent key return `None`. -/
def cacheGet (now : Nat) (key : String) (c : Cache) : Option CacheVal × Cache :=
  match c.lookup key with
  | none => (none, c)
  | some entry =>
    if now < entry.expires_at then
      let entry' := { entry with hits := entry.hits + 1, last_accessed := now }
      (some entry.value, c.map (updateEntry key entry'))
    else
      (none, c.filter (fun kv => kv.1 ≠ key))

/-- `InMemoryCache.set`: always overwrite, with `expires_at = now + ttl`. -/
def cacheSet (now : Nat) (key : String) (v : CacheVal) (ttl : Nat) (c : Cache) : Cache :=
  (key, { value := v, created_at := now, expires_at := now + ttl,
          hits := 0, last_accessed := now }) :: c.filter (fun kv => kv.1 ≠ key)

/-- `InMemoryCache.delete`. -/
def cacheDelete (key : String) (c : Cache) : Cache :=
  c.filter (fun kv => kv.1 ≠ key)

/-- `InMemoryCache.exists`: implemented as `self.get(key) is not None`, so it
performs a full `get`, side effects included. -/
def cacheExists (now : Nat) (key : String) (c : Cache) : Bool × Cache :=
  let (v, c') := cacheGet now key c
  (v.isSome, c')

/-- `total_hits` as summed by `InMemoryCache.get_stats`. -/
def cacheTotalHits (c : Cache) : Nat :=
  (c.map (fun kv => kv.2.hits)).sum

/-! ## CachedCampaignRepositoryProxy (`app/services/proxy.py`)

Reads go through the cache (`_generate_cache_key`/`_get_cached_result`/
`_cache_result`), writes delegate to the wrapped repository and then call
`invalidate_cache_pattern`, which deletes every cached key containing the
pattern as a substring.  The campaign proxy's default TTL is 600 seconds. -/

/-- Python `str(x)` for an optional integer argument (`str(None) = "None"`). -/
def optNatStr : Option Nat → String
  | none => "None"
  | some n => toString n

/-- Python `str(x)` for an optional string argument (`str(None) = "None"`). -/
def optStrStr : Option String → String
  | none => "None"
  | some s => s

/-- `_generate_cache_key("find_all", limit=..., status=...)`: the operation
name followed by the keyword arguments in sorted key order. -/
def findAllKey (limit : Option Nat) (status : Option String) : String :=
  "find_all" ++ "_limit:" ++ optNatStr limit ++ "_status:" ++ optStrStr status

/-- `_generate_cache_key("find_by_id", campaign_id)`: a plain string argument
is appended via `str(arg)`. -/
def findByIdKey (campaign_id : String) : String :=
  "find_by_id" ++ "_" ++ campaign_id

/-- The wrapped campaign repository (an external collaborator of the proxy). -/
structure CampaignRepo where
  find_all : Option Nat → Option String → List PCampaign
  find_by_id : String → Option PCampaign
  update : PCampaign → Bool
  delete : String → Bool

/-- Mutable state of `CachedRepositoryProxy`: the shared cache plus the
proxy-wide hit/miss counters. -/
structure ProxyState where
  cache : Cache
  hit_count : Nat
  miss_count : Nat

/-- `invalidate_cache_pattern`: delete every cached key containing `pattern`. -/
def invalidateCachePattern (pattern : String) (c : Cache) : Cache :=
  c.filter (fun kv => ¬ strContains kv.1 pattern)

/-- `CachedCampaignRepositoryProxy.find_all`: serve from cache on a hit,
otherwise delegate to the repository and cache the list under TTL 600. -/
def proxyFindAll (repo : CampaignRepo) (now : Nat) (limit : Option Nat)
    (status : Option String) (st : ProxyState) : CacheVal × ProxyState :=
  let key := findAllKey limit status
  match cacheGet now key st.cache with
  | (some v, c') => (v, { st with cache := c', hit_count := st.hit_count + 1 })
  | (none, c') =>
    let result := CacheVal.camps (repo.find_all limit status)
    (result, { st with cache := cacheSet now key result 600 c',
                       miss_count := st.miss_count + 1 })

/-- `CachedCampaignRepositoryProxy.find_by_id`: serve from cache on a hit,
otherwise delegate; only a truthy (found) result is cached. -/
def proxyFindById (repo : CampaignRepo) (now : Nat) (campaign_id : String)
    (st : ProxyState) : Option CacheVal × ProxyState :=
  let key := findByIdKey campaign_id
  match cacheGet now key st.cache with
  | (some v, c') => (some v, { st with cache := c', hit_count := st.hit_count + 1 })
  | (none, c') =>
    match repo.find_by_id campaign_id with
    | some camp =>
      (some (CacheVal.camp camp),
       { st with cache := cacheSet now key (CacheVal.camp camp) 600 c',
                 miss_count := st.miss_count + 1 })
    | none => (none, { st with cache := c', miss_count := st.miss_count + 1 })

/-- `CachedCampaignRepositoryProxy.update`: delegates to the wrapped
repository, then builds the invalidation pattern
`f"find_by_id_{campaign.id}"`.  The `Campaign` model exposes `campaign_id`
but no `id` attribute, so this read raises `AttributeError` after the
repository write and before either `invalidate_cache_pattern` call: the
method raises to its caller and the proxy's cache is left untouched. -/
def proxyUpdate (repo : CampaignRepo) (campaign : PCampaign)
    (_st : ProxyState) : Except String (Bool × ProxyState) :=
  let _result := repo.update campaign
  .error attrErrCampaignId

/-- `CachedCampaignRepositoryProxy.delete`: delegate to the repository and,
if the delete succeeded, invalidate the same two key patterns. -/
def proxyDelete (repo : CampaignRepo) (campaign_id : String)
    (st : ProxyState) : Bool × ProxyState :=
  let result := repo.delete campaign_id
  if result then
    let c1 := invalidateCachePattern ("find_by_id_" ++ campaign_id) st.cache
    let c2 := invalidateCachePattern "find_all" c1
    (result, { st with cache := c2 })
  else
    (result, st)

/-! ## AccessControlProxy (`app/services/proxy.py`)

The proxy holds an optional caller (`self._user_context`), an append-only
access log, and the wrapped repository.  `_check_permission` implements the
decision rule; denied calls raise `PermissionError` (embedded as `.error`). -/

/-- The caller identity as the proxy reads it (`user.id`, `user.role`). -/
structure ACUser where
  id : String
  role : String
deriving DecidableEq, Repr

/-- A resource as the ownership check reads it: `hasattr(resource, f)`
followed by attribute access is embedded as an `Option` field (`creator_id`
is present on campaign resources, `donor_id` on donation resources). -/
structure ACResource where
  id : String
  creator_id : Option String
  donor_id : Option String
deriving DecidableEq, Repr

/-- One entry of the append-only access log (`_log_access`). -/
structure ACLogEntry where
  user_id : Option String
  user_role : Option String
  operation : String
  resource : String
  allowed : Bool
  reason : String
deriving DecidableEq, Repr

/-- `AccessControlProxy._check_permission`. -/
def checkPermission (user : Option ACUser) (operation : String)
    (resource : Option ACResource) : Bool × String :=
  match user with
  | none => (false, "No user context")
  | some u =>
    if u.role == "admin" then (true, "Admin access")
    else if operation ∈ ["read", "find", "get"] then (true, "Read access allowed")
    else if operation ∈ ["create", "update", "delete"] then
      if operation == "create" then (true, "Authenticated create access")
      else
        let creatorOwn := match resource with
          | some r => r.creator_id
          | none => none
        let donorOwn := match resource with
          | some r => r.donor_id
          | none => none
        if creatorOwn == some u.id then (true, "Owner access")
        else if donorOwn == some u.id then (true, "Donor access")
        else (false, "Not owner or admin")
    else (false, "Unknown operation")

/-- The repository wrapped by the access control proxy. -/
structure ACRepo where
  find_by_id : String → Option ACResource
  update : ACResource → Bool
  delete : String → Bool

/-- `AccessControlProxy.update`: check permission, log the decision, then
either delegate to the wrapped repository or raise `PermissionError`. -/
def acUpdate (repo : ACRepo) (user : Option ACUser) (resource : ACResource)
    (log : List ACLogEntry) : Except String Bool × List ACLogEntry :=
  let ar := checkPermission user "update" (some resource)
  let log' := log ++ [{ user_id := user.map ACUser.id, user_role := user.map ACUser.role,
                        operation := "update", resource := resource.id,
                        allowed := ar.1, reason := ar.2 }]
  if ar.1 then (.ok (repo.update resource), log')
  else (.error ("Access denied: " ++ ar.2), log')

/-- `AccessControlProxy.delete`: first fetch the resource through the wrapped
repository to evaluate ownership, then check, log, and delegate or raise. -/
def acDelete (repo : ACRepo) (user : Option ACUser) (resource_id : String)
    (log : List ACLogEntry) : Except String Bool × List ACLogEntry :=
  let resource := repo.find_by_id resource_id
  let ar := checkPermission user "delete" resource
  let log' := log ++ [{ user_id := user.map ACUser.id, user_role := user.map ACUser.role,
                        operation := "delete", resource := resource_id,
                        allowed := ar.1, reason := ar.2 }]
  if ar.1 then (.ok (repo.delete resource_id), log')
  else (.error ("Access denied: " ++ ar.2), log')

/-! ## Donation model methods (`app/models/donation.py`) -/

/-- The characters of the date/id parts of a receipt id.  `strftime('%Y%m%d')`
calendar rendering is abstracted to decimal rendering of the instant; only
its determinism matters to the receipt behaviour. -/
def receiptDatePart (created_at : Nat) : String := toString created_at

/-- Python `s[-4:]`. -/
def lastFour (s : String) : String :=
  String.mk (s.toList.drop (s.toList.length - 4))

/-- Python `s.upper()`. -/
def pyUpper (s : String) : String :=
  String.mk (s.toList.map Char.toUpper)

/-- The `Donation` model fields involved in completion and receipts. -/
structure MDonation where
  donation_id : String
  amount : Rat
  status : DonationStatus
  created_at : Nat
  completed_at : Option Nat
  transaction_id : Option String
  receipt_id : Option String
deriving DecidableEq, Repr

/-- `Donation.generate_receipt_id`: build `ORD-{date}-{last4 upper}` only if
no receipt id is stored yet; always return the stored receipt id. -/
def generateReceiptId (d : MDonation) : String × MDonation :=
  match d.receipt_id with
  | some r => (r, d)
  | none =>
    let r := "ORD-" ++ receiptDatePart d.created_at ++ "-" ++ pyUpper (lastFour d.donation_id)
    (r, { d with receipt_id := some r })

/-- `Donation.complete_donation`: only a pending donation completes; it gets
`completed_at`, optionally a transaction id, and a generated receipt id. -/
def completeDonation (now : Nat) (transaction_id : Option String)
    (d : MDonation) : Bool × MDonation :=
  if d.status = DonationStatus.pending then
    let d1 := { d with status := DonationStatus.completed, completed_at := some now }
    let d2 := match transaction_id with
      | some t => { d1 with transaction_id := some t }
      | none => d1
    (true, (generateReceiptId d2).2)
  else
    (false, d)

/-! ## Donation processing pipeline (`app/services/chain_of_responsibility.py`)

The pipeline is a linked chain of handlers sharing one mutable
`DonationProcessingRequest`.  Each concrete handler's `_process` is embedded
as a state-passing function; a `_process` body that lets a Python exception
escape is embedded as `Except.error` with the exception text, which the
abstract `DonationHandler.handle` wrapper catches (`runChain`). -/

/-- `ProcessingResult` enum (`cont` stands for the `CONTINUE` member). -/
inductive ProcessingResult where
  | success | failure | cont | stop
deriving DecidableEq, Repr

/-- Donation object as the handlers receive it: the readable properties of
the `Donation` model (`app/models/donation.py`), whose properties are all
getter-only (assignments through them raise, embedded at the assignment
sites).  `requires_review` is not a model attribute: the fraud handler may
create it dynamically by assignment; `requires_review = false` encodes "the
attribute was never created", so a read of it in that state raises
`AttributeError` (embedded where the storage handler reads it). -/
structure PDonation where
  donation_id : String
  amount : Rat
  donor_id : String
  campaign_id : String
  status : PyEnumOrStr DonationStatus
  requires_review : Bool
  transaction_id : Option String
  payment_method : Option String
  created_at : Nat
deriving DecidableEq, Repr

/-- The donor as the pipeline receives it: the `User`/`Donor` model exposes
`user_id` and `is_active` but no `id` attribute, so handler reads of
`donor.id` raise `AttributeError` (embedded at those sites). -/
structure PDonor where
  user_id : String
  is_active : Bool
deriving DecidableEq, Repr

/-- The payment data dict (string-valued entries such as `method` and
`card_number`). -/
abbrev PaymentData := List (String × String)

/-- The dict returned by `PaymentProcessor.process_payment`; optional entries
mirror `dict.get` with its defaults. -/
structure PaymentResult where
  success : Bool
  transaction_id : Option String
  payment_method : Option String
  fee : Option Rat
  error : Option String
deriving DecidableEq, Repr

/-- One value of the heterogeneous `processing_context` dict. -/
inductive CtxVal where
  | int (n : Int)
  | str (s : String)
  | strs (l : List String)
  | nat (n : Nat)
  | payres (p : PaymentResult)
  | don (d : PDonation)
  | camp (c : PCampaign)
  | res (r : ProcessingResult)
deriving DecidableEq, Repr

/-- An entry of the request's `errors` / `warnings` lists (display timestamp
omitted). -/
structure Issue where
  message : String
  handler : Option String
deriving DecidableEq, Repr

/-- An entry of the ordered `processing_log` (display timestamp omitted). -/
structure LogEntry where
  handler : String
  result : ProcessingResult
  message : String
deriving DecidableEq, Repr

/-- `DonationProcessingRequest`: the shared mutable state of one pipeline run. -/
structure DRequest where
  donation : PDonation
  donor : PDonor
  campaign : PCampaign
  payment_data : PaymentData
  processing_context : List (String × CtxVal)
  errors : List Issue
  warnings : List Issue
  processing_log : List LogEntry
deriving DecidableEq, Repr

/-- `DonationProcessingRequest.add_error`. -/
def addError (message : String) (handler : Option String) (r : DRequest) : DRequest :=
  { r with errors := r.errors ++ [{ message := message, handler := handler }] }

/-- `DonationProcessingRequest.add_warning`. -/
def addWarning (message : String) (handler : Option String) (r : DRequest) : DRequest :=
  { r with warnings := r.warnings ++ [{ message := message, handler := handler }] }

/-- `DonationProcessingRequest.log_processing_step`. -/
def logStep (handler : String) (result : ProcessingResult) (message : String)
    (r : DRequest) : DRequest :=
  { r with processing_log := r.processing_log ++
      [{ handler := handler, result := result, message := message }] }

/-- `DonationProcessingRequest.set_context_value` (dict assignment). -/
def setCtx (key : String) (v : CtxVal) (r : DRequest) : DRequest :=
  { r with processing_context :=
      (key, v) :: r.processing_context.filter (fun kv => kv.1 ≠ key) }

/-- `DonationProcessingRequest.get_context_value` with default `None`. -/
def getCtx (key : String) (r : DRequest) : Option CtxVal :=
  r.processing_context.lookup key

/-- A handler of the chain: its class name and its `_process` step.  A step
returning `.error e` models a Python exception escaping `_process`. -/
structure Handler where
  name : String
  step : DRequest → Except String (ProcessingResult × DRequest)

/-- `DonationHandler.handle` iterated over the linked chain: run the head
handler's `_process` under the `try/except` boundary, log the outcome, stop
on `FAILURE`, report `STOP` as success, and otherwise pass the request to
the next handler if one is linked. -/
def runChain : List Handler → DRequest → ProcessingResult × DRequest
  | [], r => (ProcessingResult.success, r)
  | h :: rest, r =>
    match h.step r with
    | .error e =>
      let r1 := addError ("Unexpected error in " ++ h.name ++ ": " ++ e) (some h.name) r
      (ProcessingResult.failure, logStep h.name ProcessingResult.failure e r1)
    | .ok (result, r1) =>
      let r2 := logStep h.name result "" r1
      if result = ProcessingResult.failure then (result, r2)
      else if result = ProcessingResult.stop then (ProcessingResult.success, r2)
      else if ¬ rest.isEmpty ∧
          (result = ProcessingResult.success ∨ result = ProcessingResult.cont) then
        runChain rest r2
      else (result, r2)

/-- Numeric rendering of an amount in an interpolated message (Python's float
rendering is abstracted to `Rat` rendering; no claim depends on the text). -/
def ratStr (q : Rat) : String := toString q

/-- `ValidationHandler._process`. -/
def validationStep (now : Nat) (r : DRequest) : ProcessingResult × DRequest :=
  if r.donation.amount ≤ 0 then
    (ProcessingResult.failure,
     addError "Donation amount must be greater than 0" (some "ValidationHandler") r)
  else if r.donation.amount > 10000 then
    (ProcessingResult.failure,
     addError "Donation amount exceeds maximum limit of $10000.0" (some "ValidationHandler") r)
  else if ¬ pyEqStr r.campaign.status "active" then
    (ProcessingResult.failure,
     addError "Cannot donate to inactive campaign" (some "ValidationHandler") r)
  else if (match r.campaign.end_date with | some t => decide (t < now) | none => false) then
    (ProcessingResult.failure,
     addError "Campaign has ended" (some "ValidationHandler") r)
  else if ¬ r.donor.is_active then
    (ProcessingResult.failure,
     addError "Donor account is inactive" (some "ValidationHandler") r)
  else
    let total := r.campaign.current_amount + r.donation.amount
    let r1 :=
      if r.campaign.goal_amount ≠ 0 ∧ total > r.campaign.goal_amount * (11 / 10 : Rat) then
        addWarning ("Donation would exceed campaign goal by $" ++
          ratStr (total - r.campaign.goal_amount)) (some "ValidationHandler") r
      else r
    (ProcessingResult.success,
     logStep "ValidationHandler" ProcessingResult.success "Validation passed" r1)

/-- `DuplicateCheckHandler._process` (default time window: 5 minutes): after
storing the cutoff it builds the dedup key
`f"{request.donor.id}_{request.campaign.id}_{request.donation.amount}"`.
The `User`/`Donor` model has no `id` attribute, so the first read of the
f-string raises `AttributeError`, which escapes `_process` (this handler has
no `try`) to the `handle` boundary.  The cutoff context write preceding the
raising f-string is not observable through the `String`-typed fault channel
of `Handler.step` and is dropped; nothing below inspects that context key. -/
def duplicateStep (_now : Nat) (_window : Nat) (_r : DRequest) :
    Except String (ProcessingResult × DRequest) :=
  .error attrErrDonorId

/-- `FraudDetectionHandler._is_new_donor` (simplified in the source: `True`). -/
def isNewDonor (_ : PDonor) : Bool := true

/-- `FraudDetectionHandler._has_recent_large_donations` (source: `False`). -/
def hasRecentLargeDonations (_ : PDonor) : Bool := false

/-- `FraudDetectionHandler._has_suspicious_payment_pattern`: a card number
containing a known test-card pattern. -/
def hasSuspiciousPaymentPattern (pd : PaymentData) : Bool :=
  match pd.lookup "card_number" with
  | some cn => ["4111111111111111", "4000000000000000"].any (fun p => strContains cn p)
  | none => false

/-- `FraudDetectionHandler._has_rapid_donations` (source: `False`). -/
def hasRapidDonations (_ : PDonor) : Bool := false

/-- The `suspicious_amounts` constants of `FraudDetectionHandler._process`. -/
def suspiciousAmounts : List Rat := [999.99, 1000.00, 5000.00, 9999.99]

/-- The additive score and reasons accumulated from the five fraud signals
(`FraudDetectionHandler._process`, first half). -/
def fraudScoreReasons (r : DRequest) : Nat × List String :=
  let a0 : Nat × List String := (0, [])
  let a1 := if r.donation.amount > 1000 ∧ isNewDonor r.donor then
      (a0.1 + 30, a0.2 ++ ["Large amount from new donor"]) else a0
  let a2 := if hasRecentLargeDonations r.donor then
      (a1.1 + 25, a1.2 ++ ["Multiple large donations recently"]) else a1
  let a3 := if hasSuspiciousPaymentPattern r.payment_data then
      (a2.1 + 20, a2.2 ++ ["Suspicious payment pattern"]) else a2
  let a4 := if r.donation.amount ∈ suspiciousAmounts then
      (a3.1 + 15, a3.2 ++ ["Donation amount matches common fraud pattern"]) else a3
  let a5 := if hasRapidDonations r.donor then
      (a4.1 + 10, a4.2 ++ ["Rapid consecutive donations"]) else a4
  a5

/-- The thresholding tail of `FraudDetectionHandler._process`, operating on
the computed `fraud_score` / `fraud_reasons` locals: record them in the
context, reject at score 70, flag for review at score 40. -/
def fraudFinish (fraud_score : Nat) (fraud_reasons : List String) (r : DRequest) :
    ProcessingResult × DRequest :=
  let r0 := setCtx "fraud_reasons" (CtxVal.strs fraud_reasons)
              (setCtx "fraud_score" (CtxVal.nat fraud_score) r)
  if fraud_score ≥ 70 then
    (ProcessingResult.failure,
     addError ("High fraud risk (score: " ++ toString fraud_score ++ "): " ++
       String.intercalate ", " fraud_reasons) (some "FraudDetectionHandler") r0)
  else
    let r1 :=
      if fraud_score ≥ 40 then
        let rw := addWarning ("Medium fraud risk (score: " ++ toString fraud_score ++ "): " ++
          String.intercalate ", " fraud_reasons) (some "FraudDetectionHandler") r0
        { rw with donation := { rw.donation with requires_review := true } }
      else r0
    (ProcessingResult.success,
     logStep "FraudDetectionHandler" ProcessingResult.success
       ("Fraud check passed (score: " ++ toString fraud_score ++ ")") r1)

/-- `FraudDetectionHandler._process`: score the five signals, then threshold. -/
def fraudStep (r : DRequest) : ProcessingResult × DRequest :=
  let sr := fraudScoreReasons r
  fraudFinish sr.1 sr.2 r

/-- External collaborators the pipeline is constructed with: payment
processor, the two repositories, and the event manager.  `Except.error`
models the collaborator call raising. -/
structure Collaborators where
  processPayment : String → Rat → PaymentData → Except String PaymentResult
  createDonation : PDonation → Except String PDonation
  updateCampaign : PCampaign → Except String PCampaign
  notifyDonationCompleted : PDonation → Except String Unit
  notifyDonationPendingReview : PDonation → Except String Unit
  notifyCampaignGoalReached : PCampaign → Except String Unit

/-- `PaymentProcessingHandler._process`: its body runs under its own
`try/except`.  A raising payment call becomes a `Payment processing error`
Failure; a declined payment a `Payment failed` Failure.  On a successful
payment the next statement, `request.donation.transaction_id = ...`, assigns
through the getter-only `Donation.transaction_id` property and raises
`AttributeError`, which the same `except` turns into a
`Payment processing error` Failure — so no payment ever completes this
handler successfully. -/
def paymentStep (processPayment : String → Rat → PaymentData → Except String PaymentResult)
    (r : DRequest) : ProcessingResult × DRequest :=
  let method := (r.payment_data.lookup "method").getD "credit_card"
  match processPayment method r.donation.amount r.payment_data with
  | .error e =>
    (ProcessingResult.failure,
     addError ("Payment processing error: " ++ e) (some "PaymentProcessingHandler") r)
  | .ok pr =>
    let r1 := setCtx "payment_result" (CtxVal.payres pr) r
    if pr.success then
      (ProcessingResult.failure,
       addError ("Payment processing error: " ++ attrErrSetTransactionId)
         (some "PaymentProcessingHandler") r1)
    else
      (ProcessingResult.failure,
       addError ("Payment failed: " ++ pr.error.getD "Unknown error")
         (some "PaymentProcessingHandler") r1)

/-- `DatabaseStorageHandler._process`: its body runs under its own
`try/except` and starts with `if request.donation.requires_review:`.  If the
fraud handler never created that attribute the read itself raises
`AttributeError`; if it did (the flag is set), the branch assigns
`request.donation.status = 'pending_review'` through the getter-only
`Donation.status` property, which raises instead.  Either way the `except`
reports a `Database storage error` Failure, so no donation is ever
persisted and the `saved_donation` context key is never written. -/
def storageStep (_createDonation : PDonation → Except String PDonation) (_now : Nat)
    (r : DRequest) : ProcessingResult × DRequest :=
  if r.donation.requires_review then
    (ProcessingResult.failure,
     addError ("Database storage error: " ++ attrErrSetStatus)
       (some "DatabaseStorageHandler") r)
  else
    (ProcessingResult.failure,
     addError ("Database storage error: " ++ attrErrRequiresReview)
       (some "DatabaseStorageHandler") r)

/-- `CampaignUpdateHandler._process`: its body runs under its own
`try/except`.  In the `completed` branch the first statement,
`request.campaign.current_amount += ...`, assigns through the getter-only
`Campaign.current_amount` property and raises `AttributeError`, caught into
a `Campaign update error` Failure before the repository is consulted; a
donation whose status is not the string `'completed'` takes the no-update
branch and succeeds. -/
def campaignUpdateStep (_updateCampaign : PCampaign → Except String PCampaign)
    (r : DRequest) : ProcessingResult × DRequest :=
  if pyEqStr r.donation.status "completed" then
    (ProcessingResult.failure,
     addError ("Campaign update error: " ++ attrErrSetCurrentAmount)
       (some "CampaignUpdateHandler") r)
  else
    (ProcessingResult.success,
     logStep "CampaignUpdateHandler" ProcessingResult.success
       "Campaign not updated - donation pending review" r)

/-- The `try` body of `NotificationHandler._process`: fire the event for the
donation's status, then the goal-reached event if the campaign completed in
this run. -/
def notificationBody (collab : Collaborators) (r : DRequest) : Except String DRequest :=
  match (if pyEqStr r.donation.status "completed" then
           collab.notifyDonationCompleted r.donation
         else if pyEqStr r.donation.status "pending_review" then
           collab.notifyDonationPendingReview r.donation
         else .ok ()) with
  | .error err => .error err
  | .ok _ =>
    match (if pyEqStr r.campaign.status "completed" ∧
              (getCtx "updated_campaign" r).isSome then
             collab.notifyCampaignGoalReached r.campaign
           else .ok ()) with
    | .error err => .error err
    | .ok _ =>
      .ok (logStep "NotificationHandler" ProcessingResult.success
        "Notifications sent" r)

/-- `NotificationHandler._process`: a raising notification is caught, recorded
as an error plus a downgrade warning, and still reported as `SUCCESS`. -/
def notificationStep (collab : Collaborators) (r : DRequest) :
    ProcessingResult × DRequest :=
  match notificationBody collab r with
  | .ok r1 => (ProcessingResult.success, r1)
  | .error e =>
    let r1 := addError ("Notification error: " ++ e) (some "NotificationHandler") r
    let r2 := addWarning "Notifications failed but donation was processed"
      (some "NotificationHandler") r1
    (ProcessingResult.success, r2)

/-- The chain built by `DonationProcessingPipeline.__init__`, in order. -/
def pipelineHandlers (collab : Collaborators) (now : Nat) : List Handler :=
  [⟨"ValidationHandler", fun r => .ok (validationStep now r)⟩,
   ⟨"DuplicateCheckHandler", fun r => duplicateStep now 5 r⟩,
   ⟨"FraudDetectionHandler", fun r => .ok (fraudStep r)⟩,
   ⟨"PaymentProcessingHandler", fun r => .ok (paymentStep collab.processPayment r)⟩,
   ⟨"DatabaseStorageHandler", fun r => .ok (storageStep collab.createDonation now r)⟩,
   ⟨"CampaignUpdateHandler", fun r => .ok (campaignUpdateStep collab.updateCampaign r)⟩,
   ⟨"NotificationHandler", fun r => .ok (notificationStep collab r)⟩]

/-- `DonationProcessingPipeline.process_donation`: build a fresh request,
drive it through the chain, then record the final result in the context and
return the request to the caller. -/
def processDonation (collab : Collaborators) (now : Nat) (donation : PDonation)
    (donor : PDonor) (campaign : PCampaign) (payment_data : PaymentData) : DRequest :=
  let r0 : DRequest := { donation := donation, donor := donor, campaign := campaign,
                         payment_data := payment_data, processing_context := [],
                         errors := [], warnings := [], processing_log := [] }
  let res := runChain (pipelineHandlers collab now) r0
  setCtx "completed_at" (CtxVal.nat now) (setCtx "final_result" (CtxVal.res res.1) res.2)

/-! ## Concrete example inputs used by witnesses and counterexamples -/

/-- Whether an `Except` value is a normal (non-raising) return. -/
def exceptOk {ε α : Type} : Except ε α → Bool
  | .ok _ => true
  | .error _ => false

/-- An active campaign exactly as the `Campaign` model holds it: the `status`
property is the enum member `CampaignStatus.ACTIVE`. -/
def exCampaignEnum : PCampaign :=
  { campaign_id := "c1", status := PyEnumOrStr.enum CampaignStatus.active,
    end_date := none, goal_amount := 5000, current_amount := 0, donation_count := 0 }

/-- The same campaign with a duck-typed string status `'active'` (the shape
the pipeline handlers themselves read and write). -/
def exCampaignStr : PCampaign :=
  { exCampaignEnum with status := PyEnumOrStr.str "active" }

/-- A pending $100 donation. -/
def exDonation : PDonation :=
  { donation_id := "d1", amount := 100, donor_id := "u1", campaign_id := "c1",
    status := PyEnumOrStr.enum DonationStatus.pending, requires_review := false,
    transaction_id := none, payment_method := some "credit_card", created_at := 0 }

/-- An active donor. -/
def exDonor : PDonor := { user_id := "u1", is_active := true }

/-- A fresh processing request around the enum-status campaign. -/
def exRequestEnum : DRequest :=
  { donation := exDonation, donor := exDonor, campaign := exCampaignEnum,
    payment_data := [], processing_context := [], errors := [], warnings := [],
    processing_log := [] }

/-- A fresh processing request around the string-status campaign. -/
def exRequestStr : DRequest :=
  { exRequestEnum with campaign := exCampaignStr }

/-- Collaborators that all succeed (payment charges a $3 fee). -/
def exCollabOk : Collaborators :=
  { processPayment := fun m _ _ =>
      .ok { success := true, transaction_id := some "tx1", payment_method := some m,
            fee := some 3, error := none },
    createDonation := fun d => .ok d,
    updateCampaign := fun c => .ok c,
    notifyDonationCompleted := fun _ => .ok (),
    notifyDonationPendingReview := fun _ => .ok (),
    notifyCampaignGoalReached := fun _ => .ok () }

/-- A completed model-level donation with no receipt yet. -/
def exMDonation : MDonation :=
  { donation_id := "abcd1234", amount := 100, status := DonationStatus.completed,
    created_at := 7, completed_at := some 7, transaction_id := some "tx",
    receipt_id := none }

/-- A concrete cache entry set at time 10 with ttl 5. -/
def exEntry : CacheEntry :=
  { value := CacheVal.camp exCampaignEnum, created_at := 10, expires_at := 15,
    hits := 0, last_accessed := 10 }

/-- A concrete one-entry cache. -/
def exCache : Cache := [("k", exEntry)]

/-- Collaborators whose notification sink raises `e`; everything else
succeeds. -/
def exCollabNotifyFail (e : String) : Collaborators :=
  { exCollabOk with
    notifyDonationCompleted := fun _ => .error e
    notifyDonationPendingReview := fun _ => .error e
    notifyCampaignGoalReached := fun _ => .error e }

/-- The negative-amount donation of the short-circuit scenario. -/
def exDonationNeg : PDonation := { exDonation with amount := -5 }

/-- A caller who neither owns the resource nor is an admin. -/
def exStranger : ACUser := { id := "u2", role := "donor" }

/-- The resource's owner. -/
def exOwner : ACUser := { id := "u1", role := "donor" }

/-- An admin caller. -/
def exAdmin : ACUser := { id := "u9", role := "admin" }

/-- A campaign-shaped resource owned by `u1`. -/
def exACRes : ACResource := { id := "r1", creator_id := some "u1", donor_id := none }

/-- A repository for the access-control runs. -/
def exACRepo : ACRepo :=
  { find_by_id := fun _ => some exACRes, update := fun _ => true, delete := fun _ => true }

/-- The repository behind the concrete proxy runs below. -/
def exRepo : CampaignRepo :=
  { find_all := fun _ _ => [exCampaignEnum],
    find_by_id := fun _ => some exCampaignEnum,
    update := fun _ => true,
    delete := fun _ => true }

/-- A proxy state whose cache holds a `find_all` result and the
`find_by_id` entry for campaign `c1`. -/
def exProxyState : ProxyState :=
  { cache := cacheSet 0 (findAllKey none none) (CacheVal.camps [exCampaignEnum]) 600
      (cacheSet 0 (findByIdKey "c1") (CacheVal.camp exCampaignEnum) 600 []),
    hit_count := 0, miss_count := 0 }

/-- The cache entry stored under the `find_all` key of `exProxyState`. -/
def exFindAllEntry : CacheEntry :=
  { value := CacheVal.camps [exCampaignEnum], created_at := 0, expires_at := 600,
    hits := 0, last_accessed := 0 }

/-- A repository whose current `find_all` answer (the empty list) differs
from the stale list cached in `exProxyState`. -/
def exRepoStale : CampaignRepo :=
  { find_all := fun _ _ => [], find_by_id := fun _ => none,
    update := fun _ => true, delete := fun _ => true }

end DonationTracker

namespace DonationTracker

/-! ## Association-list lemmas shared by the cache theorems -/

theorem lookup_filter_none {β : Type} (k : String) (P : String × β → Bool)
    (c : List (String × β)) (h : ∀ v, P (k, v) = false) :
    (c.filter P).lookup k = none := by
  induction c with
  | nil => rfl
  | cons a t ih =>
    by_cases hp : P a = true
    · have hk : (k == a.1) = false := by
        rcases a with ⟨a1, a2⟩
        by_cases he : k = a1
        · subst he; rw [h a2] at hp; cases hp
        · simp [he]
      simp [List.filter_cons, hp, List.lookup, hk, ih]
    · simp only [Bool.not_eq_true] at hp
      simp [List.filter_cons, hp, ih]

theorem lookup_filter_ne_self {β : Type} (k : String) (c : List (String × β)) :
    (c.filter (fun kv => kv.1 ≠ k)).lookup k = none := by
  apply lookup_filter_none
  intro v
  simp

theorem cacheGet_of_lookup_none (now : Nat) (k : String) (c : Cache)
    (h : c.lookup k = none) : cacheGet now k c = (none, c) := by
  unfold cacheGet
  rw [h]

theorem lookup_map_update (k : String) (e' : CacheEntry) (c : Cache) (e : CacheEntry)
    (h : c.lookup k = some e) :
    (c.map (updateEntry k e')).lookup k = some e' := by
  induction c with
  | nil => cases h
  | cons a t ih =>
    rcases a with ⟨a1, a2⟩
    by_cases hk : a1 = k
    · subst hk
      have hhead : updateEntry a1 e' (a1, a2) = (a1, e') := by simp [updateEntry]
      rw [List.map_cons, hhead]
      simp [List.lookup]
    · have hbk : (k == a1) = false := by simp [Ne.symm hk]
      simp only [List.lookup, hbk] at h
      have hhead : updateEntry k e' (a1, a2) = (a1, a2) := by simp [updateEntry, hk]
      rw [List.map_cons, hhead]
      simp [List.lookup, hbk, ih h]

theorem map_update_id (k : String) (e' : CacheEntry) (c : Cache)
    (h : ∀ kv ∈ c, kv.1 ≠ k) :
    c.map (updateEntry k e') = c := by
  induction c with
  | nil => rfl
  | cons a t ih =>
    have ha : a.1 ≠ k := h a (by simp)
    have ht : ∀ kv ∈ t, kv.1 ≠ k := fun kv hm => h kv (by simp [hm])
    have hhead : updateEntry k e' a = a := by simp [updateEntry, ha]
    rw [List.map_cons, hhead, ih ht]

theorem totalHits_map_update (k : String) (c : Cache) (e : CacheEntry)
    (hnd : (c.map Prod.fst).Nodup) (h : c.lookup k = some e) (now : Nat) :
    cacheTotalHits (c.map (updateEntry k
        { e with hits := e.hits + 1, last_accessed := now })) =
      cacheTotalHits c + 1 := by
  induction c with
  | nil => cases h
  | cons a t ih =>
    rcases a with ⟨a1, a2⟩
    simp only [List.map_cons, List.nodup_cons, List.mem_map] at hnd
    by_cases hk : a1 = k
    · subst hk
      have he : a2 = e := by
        simpa [List.lookup] using h
      subst he
      have ht : ∀ kv ∈ t, kv.1 ≠ a1 := by
        intro kv hm heq
        exact hnd.1 ⟨kv, hm, heq⟩
      have hhead : updateEntry a1 { a2 with hits := a2.hits + 1, last_accessed := now }
          (a1, a2) = (a1, { a2 with hits := a2.hits + 1, last_accessed := now }) := by
        simp [updateEntry]
      rw [List.map_cons, hhead, map_update_id a1 _ t ht]
      simp only [cacheTotalHits, List.map_cons, List.sum_cons]
      omega
    · have hbk : (k == a1) = false := by simp [Ne.symm hk]
      simp only [List.lookup, hbk] at h
      have hhead : updateEntry k { e with hits := e.hits + 1, last_accessed := now }
          (a1, a2) = (a1, a2) := by simp [updateEntry, hk]
      rw [List.map_cons, hhead]
      simp only [cacheTotalHits, List.map_cons, List.sum_cons]
      have := ih hnd.2 h
      simp only [cacheTotalHits] at this
      omega

/-- C7: for every key `k`, value `v` and ttl, a `Get` after `Set(k, v, ttl)`
returns `v` while strictly less than `ttl` seconds have elapsed; once `ttl`
has elapsed the `Get` misses, removes the entry, and any subsequent
`Exists(k)` is false. -/
theorem c7_cache_get_after_set_respects_ttl (t_set t_get : Nat) (k : String)
    (v : CacheVal) (ttl : Nat) (c : Cache) (hmono : t_set ≤ t_get) :
    (t_get - t_set < ttl →
      (cacheGet t_get k (cacheSet t_set k v ttl c)).1 = some v) ∧
    (ttl ≤ t_get - t_set →
      (cacheGet t_get k (cacheSet t_set k v ttl c)).1 = none ∧
      ((cacheGet t_get k (cacheSet t_set k v ttl c)).2).lookup k = none ∧
      ∀ t2, (cacheExists t2 k (cacheGet t_get k (cacheSet t_set k v ttl c)).2).1 = false) := by
  constructor
  · intro h
    have hlt : t_get < t_set + ttl := by omega
    simp [cacheSet, cacheGet, List.lookup, hlt]
  · intro h
    have hge : ¬ t_get < t_set + ttl := by omega
    have hmiss : (cacheGet t_get k (cacheSet t_set k v ttl c)).2.lookup k = none := by
      simp only [cacheSet, cacheGet, List.lookup, beq_self_eq_true, if_neg hge]
      exact lookup_filter_ne_self k _
    refine ⟨?_, hmiss, ?_⟩
    · simp [cacheSet, cacheGet, List.lookup, hge]
    · intro t2
      simp [cacheExists, cacheGet_of_lookup_none t2 k _ hmiss]

/-- C7 witness: a concrete set/get/expiry run. -/
theorem c7_cache_get_after_set_respects_ttl_witness :
    (10 ≤ 12 ∧ 12 - 10 < 5 ∧
      (cacheGet 12 "k" (cacheSet 10 "k" (CacheVal.camp exCampaignEnum) 5 [])).1 =
        some (CacheVal.camp exCampaignEnum)) ∧
    (10 ≤ 20 ∧ 5 ≤ 20 - 10 ∧
      (cacheGet 20 "k" (cacheSet 10 "k" (CacheVal.camp exCampaignEnum) 5 [])).1 = none ∧
      (cacheExists 99 "k"
        (cacheGet 20 "k" (cacheSet 10 "k" (CacheVal.camp exCampaignEnum) 5 [])).2).1 = false) := by
  have h1 := c7_cache_get_after_set_respects_ttl 10 12 "k"
    (CacheVal.camp exCampaignEnum) 5 [] (by decide)
  have h2 := c7_cache_get_after_set_respects_ttl 10 20 "k"
    (CacheVal.camp exCampaignEnum) 5 [] (by decide)
  refine ⟨⟨by decide, by decide, h1.1 (by decide)⟩,
          by decide, by decide, (h2.2 (by decide)).1, (h2.2 (by decide)).2.2 99⟩

/-- C9: a receipt id is generated once: generating again on a completed
donation returns the same receipt id and leaves the stored receipt id
unchanged; the first completion of a pending donation stores a receipt id. -/
theorem c9_receipt_generated_once :
    (∀ (d : MDonation) (now : Nat) (tx : Option String),
      d.status = DonationStatus.pending →
      ((completeDonation now tx d).2.receipt_id).isSome = true) ∧
    (∀ d : MDonation, d.status = DonationStatus.completed →
      (generateReceiptId (generateReceiptId d).2).1 = (generateReceiptId d).1 ∧
      (generateReceiptId (generateReceiptId d).2).2.receipt_id =
        (generateReceiptId d).2.receipt_id) := by
  constructor
  · intro d now tx h
    cases htx : tx <;> cases hr : d.receipt_id <;>
      simp [completeDonation, h, generateReceiptId, hr]
  · intro d _
    cases hr : d.receipt_id <;> simp [generateReceiptId, hr]

/-- C9 witness: double generation on a concrete completed donation. -/
theorem c9_receipt_generated_once_witness :
    exMDonation.status = DonationStatus.completed ∧
    (generateReceiptId (generateReceiptId exMDonation).2).1 =
      (generateReceiptId exMDonation).1 := by
  exact ⟨rfl, (c9_receipt_generated_once.2 exMDonation rfl).1⟩

/-- C10: `Exists` is a full `Get`: it is literally implemented by `get`; on a
live entry one call bumps that entry's `hit_count` by one and refreshes
`last_accessed` (inflating `get_stats` hit totals by one); on an expired
entry it removes the entry from the store. -/
theorem c10_exists_is_effectful_get :
    (∀ (now : Nat) (k : String) (c : Cache), cacheExists now k c =
      ((cacheGet now k c).1.isSome, (cacheGet now k c).2)) ∧
    (∀ (now : Nat) (k : String) (c : Cache) (e : CacheEntry),
      (c.map Prod.fst).Nodup → c.lookup k = some e → now < e.expires_at →
      (cacheExists now k c).1 = true ∧
      (cacheExists now k c).2.lookup k =
        some { e with hits := e.hits + 1, last_accessed := now } ∧
      cacheTotalHits (cacheExists now k c).2 = cacheTotalHits c + 1) ∧
    (∀ (now : Nat) (k : String) (c : Cache) (e : CacheEntry),
      c.lookup k = some e → e.expires_at ≤ now →
      (cacheExists now k c).1 = false ∧ (cacheExists now k c).2.lookup k = none) := by
  refine ⟨fun now k c => rfl, ?_, ?_⟩
  · intro now k c e hnd h hlive
    have hg : cacheGet now k c =
        (some e.value,
         c.map (updateEntry k { e with hits := e.hits + 1, last_accessed := now })) := by
      simp [cacheGet, h, hlive]
    refine ⟨by simp [cacheExists, hg], ?_, ?_⟩
    · simp only [cacheExists, hg]
      exact lookup_map_update k _ c e h
    · simp only [cacheExists, hg]
      exact totalHits_map_update k c e hnd h now
  · intro now k c e h hexp
    have hg : cacheGet now k c = (none, c.filter (fun kv => kv.1 ≠ k)) := by
      simp [cacheGet, h, Nat.not_lt.mpr hexp]
    exact ⟨by simp [cacheExists, hg], by
      simp only [cacheExists, hg]
      exact lookup_filter_ne_self k c⟩

/-- C10 witness: a concrete live hit and a concrete expired probe. -/
theorem c10_exists_is_effectful_get_witness :
    ((exCache.map Prod.fst).Nodup ∧ exCache.lookup "k" = some exEntry ∧
     (12 < exEntry.expires_at ∧
      (cacheExists 12 "k" exCache).1 = true ∧
      cacheTotalHits (cacheExists 12 "k" exCache).2 = cacheTotalHits exCache + 1) ∧
     (exEntry.expires_at ≤ 20 ∧
      (cacheExists 20 "k" exCache).2.lookup "k" = none)) := by
  have hl : exCache.lookup "k" = some exEntry := by rfl
  have hlive := c10_exists_is_effectful_get.2.1 12 "k" exCache exEntry
    (by decide) hl (by decide)
  have hexp := c10_exists_is_effectful_get.2.2 20 "k" exCache exEntry hl (by decide)
  exact ⟨by decide, hl, ⟨by decide, hlive.1, hlive.2.2⟩, by decide, hexp.2⟩

/-! ## Lemmas for pattern invalidation (C8) -/

theorem lookup_filter_mono {β : Type} (k : String) (P : String × β → Bool)
    (c : List (String × β)) (h : c.lookup k = none) :
    (c.filter P).lookup k = none := by
  induction c with
  | nil => rfl
  | cons a t ih =>
    rcases a with ⟨a1, a2⟩
    by_cases hk : (k == a1) = true
    · simp [List.lookup, hk] at h
    · have hk' : (k == a1) = false := by simpa using hk
      simp only [List.lookup, hk'] at h
      by_cases hp : P (a1, a2) = true
      · simp [List.filter_cons, hp, List.lookup, hk', ih h]
      · simp only [Bool.not_eq_true] at hp
        simp [List.filter_cons, hp, ih h]

theorem strContains_append_left (p q : String) : strContains (p ++ q) p = true := by
  unfold strContains
  apply List.any_eq_true.mpr
  refine ⟨0, by simp, ?_⟩
  have hdata : (p ++ q).toList = p.toList ++ q.toList := by
    simp [String.toList, String.data_append]
  simp [hdata, List.isPrefixOf_iff_prefix]

theorem strContains_self (s : String) : strContains s s = true := by
  unfold strContains
  apply List.any_eq_true.mpr
  exact ⟨0, by simp, by simp [List.isPrefixOf_iff_prefix]⟩

theorem strContains_findAllKey (limit : Option Nat) (status : Option String) :
    strContains (findAllKey limit status) "find_all" = true := by
  have hk : findAllKey limit status =
      "find_all" ++ ("_limit:" ++ optNatStr limit ++ ("_status:" ++ optStrStr status)) := by
    simp only [findAllKey, String.append_assoc]
  rw [hk]
  exact strContains_append_left _ _

theorem findByIdKey_eq_pattern (cid : String) :
    findByIdKey cid = "find_by_id_" ++ cid := by
  unfold findByIdKey
  rfl

theorem invalidated_lookups (c : Cache) (cid : String) (limit : Option Nat)
    (status : Option String) :
    (invalidateCachePattern "find_all"
        (invalidateCachePattern ("find_by_id_" ++ cid) c)).lookup
      (findAllKey limit status) = none ∧
    (invalidateCachePattern "find_all"
        (invalidateCachePattern ("find_by_id_" ++ cid) c)).lookup
      (findByIdKey cid) = none := by
  constructor
  · apply lookup_filter_none
    intro v
    simp [strContains_findAllKey]
  · apply lookup_filter_mono
    apply lookup_filter_none
    intro v
    simp [findByIdKey_eq_pattern, strContains_self]

/-- C8 counterexample: a concrete `update` whose wrapped repository write
succeeds still raises `AttributeError` inside the proxy before any
invalidation, so the cached `find_all` entry survives and the next
`find_all` serves the old cached list — different from the repository's
current answer — instead of delegating. -/
theorem c8_update_never_invalidates_counterexample :
    exRepoStale.update exCampaignEnum = true ∧
    proxyUpdate exRepoStale exCampaignEnum exProxyState =
      Except.error attrErrCampaignId ∧
    exProxyState.cache.lookup (findAllKey none none) = some exFindAllEntry ∧
    (proxyFindAll exRepoStale 1 none none exProxyState).1 =
      CacheVal.camps [exCampaignEnum] ∧
    CacheVal.camps (exRepoStale.find_all none none) ≠
      CacheVal.camps [exCampaignEnum] := by
  refine ⟨by rfl, by rfl, by rfl, by rfl, by decide⟩

/-- C8 (amended): a successful `delete(campaign_id)` purges every cached
`find_all` key together with the `find_by_id` key of that campaign, and the
next `find_all`/`find_by_id` delegates to the wrapped repository; an
`update(campaign)`, however, raises `AttributeError` (the campaign object
has no `id` attribute) after the repository write and before any
invalidation, leaving the cache untouched, so a live cached `find_all`
entry is still served afterwards. -/
theorem c8_delete_invalidates_update_raises (repo : CampaignRepo)
    (camp : PCampaign) (st : ProxyState) (now : Nat) (limit : Option Nat)
    (status : Option String) (cid : String) :
    proxyUpdate repo camp st = Except.error attrErrCampaignId ∧
    (∀ entry : CacheEntry,
       st.cache.lookup (findAllKey limit status) = some entry →
       now < entry.expires_at →
       (proxyFindAll repo now limit status st).1 = entry.value) ∧
    (repo.delete cid = true →
     (proxyDelete repo cid st).2.cache.lookup (findAllKey limit status) = none ∧
     (proxyDelete repo cid st).2.cache.lookup (findByIdKey cid) = none ∧
     (proxyFindAll repo now limit status (proxyDelete repo cid st).2).1 =
       CacheVal.camps (repo.find_all limit status) ∧
     (proxyFindById repo now cid (proxyDelete repo cid st).2).1 =
       (repo.find_by_id cid).map CacheVal.camp) := by
  refine ⟨by rfl, ?_, ?_⟩
  · intro entry h1 h2
    simp [proxyFindAll, cacheGet, h1, h2]
  · intro hdel
    have hdelc : (proxyDelete repo cid st).2.cache =
        invalidateCachePattern "find_all"
          (invalidateCachePattern ("find_by_id_" ++ cid) st.cache) := by
      simp [proxyDelete, hdel]
    have hd := invalidated_lookups st.cache cid limit status
    refine ⟨by rw [hdelc]; exact hd.1, by rw [hdelc]; exact hd.2, ?_, ?_⟩
    · have hnone : (proxyDelete repo cid st).2.cache.lookup
          (findAllKey limit status) = none := by
        rw [hdelc]; exact hd.1
      simp [proxyFindAll, cacheGet_of_lookup_none now _ _ hnone]
    · have hnone : (proxyDelete repo cid st).2.cache.lookup
          (findByIdKey cid) = none := by
        rw [hdelc]; exact hd.2
      cases hr : repo.find_by_id cid <;>
        simp [proxyFindById, cacheGet_of_lookup_none now _ _ hnone, hr]

/-- C8 witness: the amended behaviour at a concrete cache, repository,
update and delete. -/
theorem c8_delete_invalidates_update_raises_witness :
    (exProxyState.cache.lookup (findAllKey none none) = some exFindAllEntry ∧
     (1 : Nat) < exFindAllEntry.expires_at ∧
     (proxyFindAll exRepo 1 none none exProxyState).1 = exFindAllEntry.value) ∧
    (exRepo.delete "c1" = true ∧
     (proxyDelete exRepo "c1" exProxyState).2.cache.lookup (findByIdKey "c1") =
       none) := by
  have h := c8_delete_invalidates_update_raises exRepo exCampaignEnum exProxyState 1
    none none "c1"
  exact ⟨⟨rfl, by decide, h.2.1 exFindAllEntry rfl (by decide)⟩,
         rfl, (h.2.2 rfl).2.1⟩

/-! ## Access control (C6) -/

theorem checkPermission_write_iff (user : Option ACUser) (op : String)
    (hop : op = "update" ∨ op = "delete") (res : ACResource) :
    ((checkPermission user op (some res)).1 = true ↔
      ∃ u, user = some u ∧ (u.role = "admin" ∨ res.creator_id = some u.id ∨
        res.donor_id = some u.id)) := by
  have main : ∀ op2 : String, op2 = "update" ∨ op2 = "delete" →
      ((checkPermission user op2 (some res)).1 = true ↔
        ∃ u, user = some u ∧ (u.role = "admin" ∨ res.creator_id = some u.id ∨
          res.donor_id = some u.id)) := by
    intro op2 hop2
    cases user with
    | none =>
      rcases hop2 with h | h <;> subst h <;> simp [checkPermission]
    | some u =>
      by_cases hr : u.role = "admin"
      · rcases hop2 with h | h <;> subst h <;> simp [checkPermission, hr]
      · have hrb : (u.role == "admin") = false := by simp [hr]
        by_cases hc : res.creator_id = some u.id
        · rcases hop2 with h | h <;> subst h <;>
            simp [checkPermission, hrb, hr, hc]
        · have hcb : (res.creator_id == some u.id) = false := by simp [hc]
          by_cases hd : res.donor_id = some u.id
          · rcases hop2 with h | h <;> subst h <;>
              simp [checkPermission, hrb, hcb, hr, hc, hd]
          · have hdb : (res.donor_id == some u.id) = false := by simp [hd]
            rcases hop2 with h | h <;> subst h <;>
              simp [checkPermission, hrb, hcb, hdb, hr, hc, hd]
  exact main op hop

/-- C6: an `update`/`delete` through the access control proxy succeeds exactly
when the caller is an admin or the resource's ownership field equals the
caller's id; a denied call fails with the authorization error carrying the
denial reason and never invokes the wrapped repository's write operation. -/
theorem c6_update_delete_ownership (repo : ACRepo) (user : Option ACUser)
    (res : ACResource) (rid : String) (log : List ACLogEntry) :
    (exceptOk (acUpdate repo user res log).1 = true ↔
       ∃ u, user = some u ∧ (u.role = "admin" ∨ res.creator_id = some u.id ∨
         res.donor_id = some u.id)) ∧
    ((checkPermission user "update" (some res)).1 = false →
       (acUpdate repo user res log).1 =
         Except.error ("Access denied: " ++ (checkPermission user "update" (some res)).2) ∧
       ∀ repo2 : ACRepo, acUpdate repo2 user res log = acUpdate repo user res log) ∧
    (repo.find_by_id rid = some res →
       (exceptOk (acDelete repo user rid log).1 = true ↔
         ∃ u, user = some u ∧ (u.role = "admin" ∨ res.creator_id = some u.id ∨
           res.donor_id = some u.id))) ∧
    (repo.find_by_id rid = some res →
       (checkPermission user "delete" (some res)).1 = false →
       (acDelete repo user rid log).1 =
         Except.error ("Access denied: " ++ (checkPermission user "delete" (some res)).2) ∧
       ∀ repo2 : ACRepo, repo2.find_by_id = repo.find_by_id →
         acDelete repo2 user rid log = acDelete repo user rid log) := by
  refine ⟨?_, ?_, ?_, ?_⟩
  · have hok : exceptOk (acUpdate repo user res log).1 =
        (checkPermission user "update" (some res)).1 := by
      by_cases h : (checkPermission user "update" (some res)).1 = true
      · simp [acUpdate, h, exceptOk]
      · have h' : (checkPermission user "update" (some res)).1 = false := by
          simpa using h
        simp [acUpdate, h', exceptOk]
    rw [hok]
    exact checkPermission_write_iff user "update" (Or.inl rfl) res
  · intro hden
    refine ⟨by simp [acUpdate, hden], fun repo2 => by simp [acUpdate, hden]⟩
  · intro hf
    have hok : exceptOk (acDelete repo user rid log).1 =
        (checkPermission user "delete" (some res)).1 := by
      by_cases h : (checkPermission user "delete" (some res)).1 = true
      · simp [acDelete, hf, h, exceptOk]
      · have h' : (checkPermission user "delete" (some res)).1 = false := by
          simpa using h
        simp [acDelete, hf, h', exceptOk]
    rw [hok]
    exact checkPermission_write_iff user "delete" (Or.inr rfl) res
  · intro hf hden
    refine ⟨by simp [acDelete, hf, hden], ?_⟩
    intro repo2 hf2
    simp [acDelete, hf, hf2, hden]

/-- C6 witness: a non-owner, non-admin caller is denied a concrete update and
delete; the owner and an admin are allowed. -/
theorem c6_update_delete_ownership_witness :
    (checkPermission (some exStranger) "update" (some exACRes)).1 = false ∧
    (acUpdate exACRepo (some exStranger) exACRes []).1 =
      Except.error "Access denied: Not owner or admin" ∧
    exceptOk (acUpdate exACRepo (some exOwner) exACRes []).1 = true ∧
    exACRepo.find_by_id "r1" = some exACRes ∧
    exceptOk (acDelete exACRepo (some exAdmin) "r1" []).1 = true := by
  have hs := c6_update_delete_ownership exACRepo (some exStranger) exACRes "r1" []
  have ho := c6_update_delete_ownership exACRepo (some exOwner) exACRes "r1" []
  have ha := c6_update_delete_ownership exACRepo (some exAdmin) exACRes "r1" []
  refine ⟨by decide, ?_, ?_, rfl, ?_⟩
  · exact (hs.2.1 (by decide)).1
  · exact ho.1.mpr ⟨exOwner, rfl, Or.inr (Or.inl rfl)⟩
  · exact (ha.2.2.1 rfl).mpr ⟨exAdmin, rfl, Or.inl rfl⟩

/-! ## Pipeline theorems (C1 - C5) -/

/-- C1: the `ValidationHandler` rejects a donation to a campaign whose
`status` is the enum member `CampaignStatus.ACTIVE`, even with a valid
amount, live end date and active donor: the handler compares the enum-valued
`Campaign.status` property against the string `'active'`, and a Python enum
member never equals a string, so the check fails for every model-level
campaign and the handler adds the `Cannot donate to inactive campaign`
error instead of returning Success. -/
theorem c1_active_enum_campaign_rejected_by_validation :
    exRequestEnum.campaign.status = PyEnumOrStr.enum CampaignStatus.active ∧
    0 < exRequestEnum.donation.amount ∧
    exRequestEnum.donation.amount ≤ 10000 ∧
    exRequestEnum.campaign.end_date = none ∧
    exRequestEnum.donor.is_active = true ∧
    validationStep 50 exRequestEnum =
      (ProcessingResult.failure,
       addError "Cannot donate to inactive campaign" (some "ValidationHandler")
         exRequestEnum) := by
  refine ⟨rfl, by decide, by decide, rfl, rfl, ?_⟩
  rfl

/-- C2: a request with a non-positive amount fails at Validation: the final
result is Failure, the processing log holds exactly the one Failure entry
recorded for `ValidationHandler`, and the only error is the amount error —
no later handler ran. -/
theorem c2_nonpositive_amount_short_circuits (collab : Collaborators) (now : Nat)
    (d : PDonation) (donor : PDonor) (camp : PCampaign) (pd : PaymentData)
    (h : d.amount ≤ 0) :
    (processDonation collab now d donor camp pd).processing_log =
      [{ handler := "ValidationHandler", result := ProcessingResult.failure,
         message := "" }] ∧
    (processDonation collab now d donor camp pd).errors =
      [{ message := "Donation amount must be greater than 0",
         handler := some "ValidationHandler" }] ∧
    getCtx "final_result" (processDonation collab now d donor camp pd) =
      some (CtxVal.res ProcessingResult.failure) := by
  refine ⟨?_, ?_, ?_⟩ <;>
    simp [processDonation, pipelineHandlers, runChain, validationStep, h,
      logStep, addError, setCtx, getCtx, List.lookup]

/-- C2 witness: the amount `-5` run. -/
theorem c2_nonpositive_amount_short_circuits_witness :
    exDonationNeg.amount ≤ 0 ∧
    (processDonation exCollabOk 50 exDonationNeg exDonor exCampaignStr
        []).processing_log =
      [{ handler := "ValidationHandler", result := ProcessingResult.failure,
         message := "" }] := by
  refine ⟨by decide, ?_⟩
  exact (c2_nonpositive_amount_short_circuits exCollabOk 50 exDonationNeg exDonor
    exCampaignStr [] (by decide)).1

/-- C3: `FraudDetectionHandler` adds the five signal weights into a score and
thresholds it: at 70 it fails with an error; in `[40, 70)` it succeeds with a
warning and sets `requires_review`; below 40 it succeeds with no warning and
leaves the donation untouched. -/
theorem c3_fraud_score_bands :
    (∀ r : DRequest,
      fraudStep r = fraudFinish (fraudScoreReasons r).1 (fraudScoreReasons r).2 r) ∧
    (∀ r : DRequest, (fraudScoreReasons r).1 =
      (if r.donation.amount > 1000 ∧ isNewDonor r.donor then 30 else 0) +
      (if hasRecentLargeDonations r.donor then 25 else 0) +
      (if hasSuspiciousPaymentPattern r.payment_data then 20 else 0) +
      (if r.donation.amount ∈ suspiciousAmounts then 15 else 0) +
      (if hasRapidDonations r.donor then 10 else 0)) ∧
    (∀ (s : Nat) (rs : List String) (r : DRequest),
      (70 ≤ s →
        (fraudFinish s rs r).1 = ProcessingResult.failure ∧
        (fraudFinish s rs r).2.errors = r.errors ++
          [{ message := "High fraud risk (score: " ++ toString s ++ "): " ++
               String.intercalate ", " rs, handler := some "FraudDetectionHandler" }] ∧
        (fraudFinish s rs r).2.donation = r.donation) ∧
      (40 ≤ s → s < 70 →
        (fraudFinish s rs r).1 = ProcessingResult.success ∧
        (fraudFinish s rs r).2.warnings = r.warnings ++
          [{ message := "Medium fraud risk (score: " ++ toString s ++ "): " ++
               String.intercalate ", " rs, handler := some "FraudDetectionHandler" }] ∧
        (fraudFinish s rs r).2.donation.requires_review = true) ∧
      (s < 40 →
        (fraudFinish s rs r).1 = ProcessingResult.success ∧
        (fraudFinish s rs r).2.warnings = r.warnings ∧
        (fraudFinish s rs r).2.donation = r.donation)) := by
  refine ⟨fun r => rfl, ?_, ?_⟩
  · intro r
    by_cases h1 : r.donation.amount > 1000 <;>
    by_cases h2 : hasSuspiciousPaymentPattern r.payment_data = true <;>
    by_cases h3 : r.donation.amount ∈ suspiciousAmounts <;>
      simp [fraudScoreReasons, isNewDonor, hasRecentLargeDonations,
        hasRapidDonations, h1, h2, h3]
  · intro s rs r
    refine ⟨?_, ?_, ?_⟩
    · intro h70
      simp [fraudFinish, h70, addError, setCtx]
    · intro h40 h70
      have hn70 : ¬ 70 ≤ s := Nat.not_le.mpr h70
      simp [fraudFinish, hn70, h40, addWarning, setCtx, logStep]
    · intro h40
      have hn70 : ¬ 70 ≤ s := by omega
      have hn40 : ¬ 40 ≤ s := Nat.not_le.mpr h40
      simp [fraudFinish, hn70, hn40, setCtx, logStep]

/-- C3 witness: the three bands at concrete scores 75, 50 and 10. -/
theorem c3_fraud_score_bands_witness :
    (70 ≤ 75 ∧ (fraudFinish 75 [] exRequestStr).1 = ProcessingResult.failure) ∧
    (40 ≤ 50 ∧ 50 < 70 ∧
      (fraudFinish 50 [] exRequestStr).2.donation.requires_review = true) ∧
    (10 < 40 ∧ (fraudFinish 10 [] exRequestStr).2.warnings = exRequestStr.warnings) := by
  have h := c3_fraud_score_bands.2.2
  refine ⟨⟨by decide, ((h 75 [] exRequestStr).1 (by decide)).1⟩,
          ⟨by decide, by decide,
           ((h 50 [] exRequestStr).2.1 (by decide) (by decide)).2.2⟩,
          by decide, ((h 10 [] exRequestStr).2.2 (by decide)).2.1⟩

/-- C4: a handler step that raises is caught at the `handle` boundary: the
chain returns a Failure value (never a raised fault) whose recorded error
and log entry name the originating handler, and the rest of the chain does
not run (the result does not depend on the remaining handlers). -/
theorem c4_handler_fault_converted_to_failure (name : String)
    (step : DRequest → Except String (ProcessingResult × DRequest))
    (rest : List Handler) (r : DRequest) (e : String) (h : step r = .error e) :
    runChain ({ name := name, step := step } :: rest) r =
      (ProcessingResult.failure,
       logStep name ProcessingResult.failure e
         (addError ("Unexpected error in " ++ name ++ ": " ++ e) (some name) r)) := by
  simp [runChain, h]

/-- C4 witness: a concrete always-raising handler at the head of a chain. -/
theorem c4_handler_fault_converted_to_failure_witness :
    ((fun _ : DRequest =>
        (Except.error "boom" : Except String (ProcessingResult × DRequest)))
      exRequestStr = Except.error "boom") ∧
    runChain [{ name := "BadHandler", step := fun _ => Except.error "boom" }]
        exRequestStr =
      (ProcessingResult.failure,
       logStep "BadHandler" ProcessingResult.failure "boom"
         (addError "Unexpected error in BadHandler: boom" (some "BadHandler")
           exRequestStr)) := by
  exact ⟨rfl, c4_handler_fault_converted_to_failure "BadHandler"
    (fun _ => Except.error "boom") [] exRequestStr "boom" rfl⟩

theorem validationStep_cases (now : Nat) (r : DRequest) :
    ((validationStep now r).1 = ProcessingResult.success ∨
     (validationStep now r).1 = ProcessingResult.failure) ∧
    (validationStep now r).2.processing_context = r.processing_context ∧
    ((validationStep now r).2.processing_log = r.processing_log ∨
     (validationStep now r).2.processing_log = r.processing_log ++
       [{ handler := "ValidationHandler", result := ProcessingResult.success,
          message := "Validation passed" }]) := by
  simp only [validationStep]
  split_ifs <;> simp [addError, addWarning, logStep]

theorem runChain_pipeline_halts (collab : Collaborators) (now : Nat) (r : DRequest) :
    (runChain (pipelineHandlers collab now) r).1 = ProcessingResult.failure ∧
    (runChain (pipelineHandlers collab now) r).2.processing_context =
      r.processing_context ∧
    ∀ en ∈ (runChain (pipelineHandlers collab now) r).2.processing_log,
      en ∈ r.processing_log ∨ en.handler = "ValidationHandler" ∨
        en.handler = "DuplicateCheckHandler" := by
  obtain ⟨hres, hctx, hlog⟩ := validationStep_cases now r
  rcases hv : validationStep now r with ⟨res1, r1⟩
  rw [hv] at hres hctx hlog
  simp only at hres hctx hlog
  rcases hres with hres | hres <;> subst hres
  · have hrun : runChain (pipelineHandlers collab now) r =
        (ProcessingResult.failure,
         logStep "DuplicateCheckHandler" ProcessingResult.failure attrErrDonorId
           (addError ("Unexpected error in DuplicateCheckHandler: " ++ attrErrDonorId)
             (some "DuplicateCheckHandler")
             (logStep "ValidationHandler" ProcessingResult.success "" r1))) := by
      simp [pipelineHandlers, runChain, hv, duplicateStep]
    rw [hrun]
    refine ⟨rfl, by simp [logStep, addError, hctx], ?_⟩
    intro en hen
    simp only [logStep, addError, List.mem_append, List.mem_singleton] at hen
    rcases hen with (hen | hen) | hen
    · rcases hlog with hl | hl
      · rw [hl] at hen
        exact Or.inl hen
      · rw [hl] at hen
        rcases List.mem_append.mp hen with h | h
        · exact Or.inl h
        · rw [List.mem_singleton.mp h]
          exact Or.inr (Or.inl rfl)
    · rw [hen]
      exact Or.inr (Or.inl rfl)
    · rw [hen]
      exact Or.inr (Or.inr rfl)
  · have hrun : runChain (pipelineHandlers collab now) r =
        (ProcessingResult.failure,
         logStep "ValidationHandler" ProcessingResult.failure "" r1) := by
      simp [pipelineHandlers, runChain, hv]
    rw [hrun]
    refine ⟨rfl, by simp [logStep, hctx], ?_⟩
    intro en hen
    simp only [logStep, List.mem_append, List.mem_singleton] at hen
    rcases hen with hen | hen
    · rcases hlog with hl | hl
      · rw [hl] at hen
        exact Or.inl hen
      · rw [hl] at hen
        rcases List.mem_append.mp hen with h | h
        · exact Or.inl h
        · rw [List.mem_singleton.mp h]
          exact Or.inr (Or.inl rfl)
    · rw [hen]
      exact Or.inr (Or.inl rfl)

/-- C5 (code bug): the claim's scenario cannot occur: no pipeline run ever
stores a donation or reaches the Notification handler.  Validation either
fails outright, or the DuplicateCheck handler raises `AttributeError`
reading `request.donor.id` and the chain halts there with a Failure — for
every set of collaborators, including ones whose payment, storage and
update calls all succeed and whose only fault would be the notification
sink.  So the premise "every handler before Notification succeeds" is
unsatisfiable, and the promised Success-with-stored-completed-donation
outcome is unreachable. -/
theorem c5_no_pipeline_run_reaches_notification (collab : Collaborators)
    (now : Nat) (d : PDonation) (donor : PDonor) (camp : PCampaign)
    (pd : PaymentData) :
    getCtx "final_result" (processDonation collab now d donor camp pd) =
      some (CtxVal.res ProcessingResult.failure) ∧
    getCtx "saved_donation" (processDonation collab now d donor camp pd) = none ∧
    "NotificationHandler" ∉
      (processDonation collab now d donor camp pd).processing_log.map
        LogEntry.handler := by
  obtain ⟨h1, h2, h3⟩ := runChain_pipeline_halts collab now
    { donation := d, donor := donor, campaign := camp, payment_data := pd,
      processing_context := [], errors := [], warnings := [],
      processing_log := [] }
  refine ⟨?_, ?_, ?_⟩
  · simp only [processDonation]
    rw [h1]
    simp [getCtx, setCtx, List.lookup]
  · simp only [processDonation]
    simp [getCtx, setCtx, List.lookup, h2]
  · simp only [processDonation, setCtx]
    intro hmem
    rw [List.mem_map] at hmem
    obtain ⟨en, hen, heq⟩ := hmem
    rcases h3 en hen with h | h | h
    · simp at h
    · rw [h] at heq
      exact absurd heq (by decide)
    · rw [h] at heq
      exact absurd heq (by decide)

end DonationTracker
